import Mathlib

/-!
Verification of `lc_registry/registry.py` (libcommon/registry-py).

The source is a single Python mixin class `RegistryMetaclassMixin` with a
class variable `_REGISTRY : Optional[Dict[str, Type[Any]]]` and four
operations:

* `registry()`   — returns `None` if `_REGISTRY is None`, else `dict(_REGISTRY)`
                   (a fresh copy of the backing dict);
* `retrieve(n)`  — returns `None` if `_REGISTRY is None`, else `_REGISTRY.get(n)`;
* `_add_class(n, c)` — no-op if `_REGISTRY is None`; raises
                   `TypeError("Type {n} already exists in registry")` if `n` is
                   already a key; otherwise performs `_REGISTRY[n] = c`;
* `__new__(cls, name, bases, attrs)` — creates the new class via
                   `type.__new__`, passes `(name, new_cls)` to `_add_class`,
                   and returns the new class.

Embedding choices:

* A Python `dict` is an association list `Dict α = List (String × α)`;
  `get` returns the first matching value, `in` tests key membership, and
  assignment `d[k] = v` replaces the value in place if `k` is a key and
  appends otherwise (Python's insertion-order semantics).
* Python dicts are heap objects, and `dict(x)` allocates a *fresh* object
  holding a copy of the entries of `x`.  To make the copy-vs-alias
  distinction of `registry()` observable we use an explicit store: a list of
  dict objects addressed by position.  `_REGISTRY` holds an address (or
  `none` for the uninitialized state).
* A raised Python exception is `Except.error` carrying the exception's type
  name and message; a raise aborts before any mutation, so the store paired
  with an error is the input store unchanged.
* Descriptors (the registered class objects) are an arbitrary type `α`;
  the registry never inspects them.
-/

/-- A Python dict with string keys, as an insertion-ordered association list. -/
abbrev Dict (α : Type) : Type := List (String × α)

/-- `d.get(k)`: the value stored under `k`, or `none`. -/
def dictGet {α : Type} : Dict α → String → Option α
  | [], _ => none
  | (k', v) :: rest, k => if k' = k then some v else dictGet rest k

/-- `k in d`: key membership test. -/
def dictMem {α : Type} (d : Dict α) (k : String) : Bool :=
  (dictGet d k).isSome

/-- `d[k] = v`: replace in place if `k` is already a key, else append. -/
def dictSet {α : Type} : Dict α → String → α → Dict α
  | [], k, v => [(k, v)]
  | (k', v') :: rest, k, v =>
      if k' = k then (k, v) :: rest else (k', v') :: dictSet rest k v

/-- The keys of a dict, in insertion order. -/
def dictKeys {α : Type} (d : Dict α) : List String :=
  d.map Prod.fst

/-- The object store: dict objects addressed by their position. -/
structure Store (α : Type) : Type where
  heap : List (Dict α)
deriving Repr, DecidableEq

/-- Read the dict object at address `a` (out-of-range reads as empty;
reachable states only use valid addresses). -/
def readA {α : Type} (s : Store α) (a : Nat) : Dict α :=
  (s.heap[a]?).getD []

/-- Overwrite the dict object at address `a` in place. -/
def writeA {α : Type} (s : Store α) (a : Nat) (d : Dict α) : Store α :=
  ⟨s.heap.set a d⟩

/-- Allocate a fresh dict object, returning its address and the new store. -/
def alloc {α : Type} (s : Store α) (d : Dict α) : Nat × Store α :=
  (s.heap.length, ⟨s.heap ++ [d]⟩)

/-- A raised Python exception: the exception type's name and its message. -/
structure PyErr : Type where
  exc : String
  msg : String
deriving Repr, DecidableEq

/-- The class-level state of `RegistryMetaclassMixin`: `_REGISTRY` is either
`None` (uninitialized) or the address of the backing dict (active). -/
structure RegistryMetaclassMixin : Type where
  _REGISTRY : Option Nat
deriving Repr, DecidableEq

namespace RegistryMetaclassMixin

/-- `registry()`: `None` if `_REGISTRY is None`, else the address of a freshly
allocated copy `dict(cls._REGISTRY)` of the backing dict. -/
def registry {α : Type} (cls : RegistryMetaclassMixin) (s : Store α) :
    Option Nat × Store α :=
  match cls._REGISTRY with
  | none => (none, s)
  | some a =>
      let (b, s') := alloc s (readA s a)
      (some b, s')

/-- `retrieve(name)`: `None` if `_REGISTRY is None`, else
`cls._REGISTRY.get(name)`. -/
def retrieve {α : Type} (cls : RegistryMetaclassMixin) (s : Store α)
    (name : String) : Option α :=
  match cls._REGISTRY with
  | none => none
  | some a => dictGet (readA s a) name

/-- `_add_class(name, new_cls)`: no-op when `_REGISTRY is None`; raises
`TypeError("Type {name} already exists in registry")` when `name` is already a
key (leaving the store untouched); otherwise `cls._REGISTRY[name] = new_cls`. -/
def _add_class {α : Type} (cls : RegistryMetaclassMixin) (s : Store α)
    (name : String) (new_cls : α) : Except PyErr Unit × Store α :=
  match cls._REGISTRY with
  | none => (Except.ok (), s)
  | some a =>
      if dictMem (readA s a) name then
        (Except.error ⟨"TypeError", "Type " ++ name ++ " already exists in registry"⟩, s)
      else
        (Except.ok (), writeA s a (dictSet (readA s a) name new_cls))

/-- `__new__(cls, name, bases, attrs)`: build `new_cls` with `type.__new__`
(modelled by the parameter `tnew`, opaque to the registry), pass
`(name, new_cls)` to `_add_class`, and return `new_cls`; a raise in
`_add_class` propagates. -/
def dunder_new {α β γ : Type} (tnew : String → β → γ → α)
    (cls : RegistryMetaclassMixin) (s : Store α)
    (name : String) (bases : β) (attrs : γ) : Except PyErr (α × Store α) :=
  let new_cls := tnew name bases attrs
  match _add_class cls s name new_cls with
  | (Except.ok (), s') => Except.ok (new_cls, s')
  | (Except.error e, _) => Except.error e

end RegistryMetaclassMixin

/-- States reachable from an initial state — uninitialized, or active with an
empty backing dict — by any sequence of the three operations. `retrieve` never
changes the state; `registry` allocates the snapshot copy; `_add_class` pairs
its store with the raise, so the constructor covers both the successful and
the failed register (the latter leaves the store unchanged). -/
inductive Reachable {α : Type} : RegistryMetaclassMixin → Store α → Prop where
  | init_uninit : Reachable ⟨none⟩ ⟨[]⟩
  | init_active : Reachable ⟨some 0⟩ ⟨[[]]⟩
  | step_register (cls : RegistryMetaclassMixin) (s : Store α) (n : String) (d : α) :
      Reachable cls s → Reachable cls (cls._add_class s n d).2
  | step_snapshot (cls : RegistryMetaclassMixin) (s : Store α) :
      Reachable cls s → Reachable cls (cls.registry s).2

/-! ### Lemmas about `Dict` operations -/

theorem dictGet_dictSet_self {α : Type} (d : Dict α) (k : String) (v : α) :
    dictGet (dictSet d k v) k = some v := by
  induction d with
  | nil => simp [dictSet, dictGet]
  | cons p rest ih =>
      obtain ⟨k', v'⟩ := p
      by_cases h : k' = k
      · simp [dictSet, dictGet, h]
      · simp [dictSet, dictGet, h, ih]

theorem dictGet_dictSet_ne {α : Type} (d : Dict α) (k k' : String) (v : α)
    (h : k' ≠ k) : dictGet (dictSet d k v) k' = dictGet d k' := by
  induction d with
  | nil => simp [dictSet, dictGet, Ne.symm h]
  | cons p rest ih =>
      obtain ⟨k₀, v₀⟩ := p
      by_cases h₀ : k₀ = k
      · subst h₀
        simp [dictSet, dictGet, Ne.symm h]
      · simp only [dictSet, if_neg h₀, dictGet]
        by_cases h₁ : k₀ = k'
        · simp [h₁]
        · simp [h₁, ih]

theorem dictSet_append_of_not_mem {α : Type} (d : Dict α) (k : String) (v : α)
    (h : dictGet d k = none) : dictSet d k v = d ++ [(k, v)] := by
  induction d with
  | nil => simp [dictSet]
  | cons p rest ih =>
      obtain ⟨k₀, v₀⟩ := p
      by_cases h₀ : k₀ = k
      · simp [dictGet, h₀] at h
      · simp only [dictGet, if_neg h₀] at h
        simp [dictSet, h₀, ih h]

theorem not_mem_dictKeys_of_dictGet_none {α : Type} (d : Dict α) (k : String)
    (h : dictGet d k = none) : k ∉ dictKeys d := by
  induction d with
  | nil => simp [dictKeys]
  | cons p rest ih =>
      obtain ⟨k₀, v₀⟩ := p
      by_cases h₀ : k₀ = k
      · simp [dictGet, h₀] at h
      · simp only [dictGet, if_neg h₀] at h
        intro hmem
        simp only [dictKeys, List.map_cons, List.mem_cons] at hmem
        rcases hmem with h1 | h2
        · exact h₀ h1.symm
        · exact ih h h2

theorem dictMem_false_iff {α : Type} (d : Dict α) (k : String) :
    dictMem d k = false ↔ dictGet d k = none := by
  simp [dictMem, Option.isSome]
  cases dictGet d k <;> simp

theorem dictMem_true_iff {α : Type} (d : Dict α) (k : String) :
    dictMem d k = true ↔ ∃ v, dictGet d k = some v := by
  simp [dictMem, Option.isSome]
  cases dictGet d k <;> simp

/-! ### Lemmas about the store -/

theorem readA_writeA_self {α : Type} (s : Store α) (a : Nat) (d : Dict α)
    (h : a < s.heap.length) : readA (writeA s a d) a = d := by
  simp [readA, writeA, List.getElem?_set_self, h]

theorem readA_writeA_ne {α : Type} (s : Store α) (a b : Nat) (d : Dict α)
    (h : a ≠ b) : readA (writeA s b d) a = readA s a := by
  simp [readA, writeA, List.getElem?_set_ne (fun hh => h hh.symm)]

theorem length_writeA {α : Type} (s : Store α) (a : Nat) (d : Dict α) :
    (writeA s a d).heap.length = s.heap.length := by
  simp [writeA]

theorem alloc_fst {α : Type} (s : Store α) (d : Dict α) :
    (alloc s d).1 = s.heap.length := rfl

theorem readA_alloc_new {α : Type} (s : Store α) (d : Dict α) :
    readA (alloc s d).2 (alloc s d).1 = d := by
  simp [alloc, readA]

theorem readA_alloc_old {α : Type} (s : Store α) (d : Dict α) (a : Nat)
    (h : a < s.heap.length) : readA (alloc s d).2 a = readA s a := by
  simp [alloc, readA, List.getElem?_append_left h]

theorem readA_concat_length {α : Type} (l : List (Dict α)) (x : Dict α) :
    readA ⟨l ++ [x]⟩ l.length = x := by
  simp [readA]

/-! ### Unfolding lemmas for the operations in the active case -/

theorem add_class_active_ok {α : Type} (cls : RegistryMetaclassMixin)
    (s : Store α) (n : String) (d : α) (a : Nat)
    (ha : cls._REGISTRY = some a) (hmem : dictMem (readA s a) n = false) :
    cls._add_class s n d = (Except.ok (), writeA s a (dictSet (readA s a) n d)) := by
  simp [RegistryMetaclassMixin._add_class, ha, hmem]

theorem add_class_active_dup {α : Type} (cls : RegistryMetaclassMixin)
    (s : Store α) (n : String) (d : α) (a : Nat)
    (ha : cls._REGISTRY = some a) (hmem : dictMem (readA s a) n = true) :
    cls._add_class s n d =
      (Except.error ⟨"TypeError", "Type " ++ n ++ " already exists in registry"⟩, s) := by
  simp [RegistryMetaclassMixin._add_class, ha, hmem]

theorem add_class_ok_not_mem {α : Type} (cls : RegistryMetaclassMixin)
    (s : Store α) (n : String) (d : α) (a : Nat)
    (ha : cls._REGISTRY = some a)
    (hok : (cls._add_class s n d).1 = Except.ok ()) :
    dictMem (readA s a) n = false := by
  by_contra hmem
  rw [Bool.not_eq_false] at hmem
  rw [add_class_active_dup cls s n d a ha hmem] at hok
  exact Except.noConfusion hok

theorem registry_active {α : Type} (cls : RegistryMetaclassMixin)
    (s : Store α) (a : Nat) (ha : cls._REGISTRY = some a) :
    cls.registry s = (some s.heap.length, ⟨s.heap ++ [readA s a]⟩) := by
  simp [RegistryMetaclassMixin.registry, ha, alloc]

theorem retrieve_active {α : Type} (cls : RegistryMetaclassMixin)
    (s : Store α) (a : Nat) (n : String) (ha : cls._REGISTRY = some a) :
    cls.retrieve s n = dictGet (readA s a) n := by
  simp [RegistryMetaclassMixin.retrieve, ha]

theorem registry_contains {α : Type} (cls : RegistryMetaclassMixin)
    (t : Store α) (a : Nat) (n : String) (ha : cls._REGISTRY = some a) :
    ∃ b, (cls.registry t).1 = some b ∧
      dictGet (readA (cls.registry t).2 b) n = dictGet (readA t a) n := by
  rw [registry_active cls t a ha]
  exact ⟨t.heap.length, rfl, by rw [readA_concat_length]⟩

/-! ### The claims -/

/-- C1: for an active registry, after `register(n, d)` (`_add_class`) succeeds,
`lookup(n)` (`retrieve`) returns `d`, and `snapshot()` (`registry`) returns a
mapping (a present dict object) containing the pair `(n, d)`. -/
theorem C1_registration_visibility {α : Type} (cls : RegistryMetaclassMixin)
    (s : Store α) (n : String) (d : α) (a : Nat)
    (ha : cls._REGISTRY = some a) (hlen : a < s.heap.length)
    (hok : (cls._add_class s n d).1 = Except.ok ()) :
    cls.retrieve (cls._add_class s n d).2 n = some d ∧
    ∃ b, (cls.registry (cls._add_class s n d).2).1 = some b ∧
      dictGet (readA (cls.registry (cls._add_class s n d).2).2 b) n = some d := by
  have hmem := add_class_ok_not_mem cls s n d a ha hok
  have hadd := add_class_active_ok cls s n d a ha hmem
  refine ⟨?_, ?_⟩
  · rw [hadd]
    show cls.retrieve (writeA s a (dictSet (readA s a) n d)) n = some d
    rw [retrieve_active cls _ a n ha, readA_writeA_self s a _ hlen,
      dictGet_dictSet_self]
  · obtain ⟨b, hb1, hb2⟩ := registry_contains cls (cls._add_class s n d).2 a n ha
    refine ⟨b, hb1, ?_⟩
    rw [hb2, hadd]
    show dictGet (readA (writeA s a (dictSet (readA s a) n d)) a) n = some d
    rw [readA_writeA_self s a _ hlen, dictGet_dictSet_self]

/-- C1 witness: a concrete active registry with an empty backing dict; after
registering `("A", 7)`, `retrieve "A"` returns `7` and the snapshot contains it. -/
theorem C1_registration_visibility_witness :
    RegistryMetaclassMixin.retrieve (⟨some 0⟩ : RegistryMetaclassMixin)
      ((RegistryMetaclassMixin._add_class ⟨some 0⟩ (⟨[[]]⟩ : Store Nat) "A" 7).2) "A" = some 7 ∧
    ∃ b, ((RegistryMetaclassMixin.registry ⟨some 0⟩
        ((RegistryMetaclassMixin._add_class ⟨some 0⟩ (⟨[[]]⟩ : Store Nat) "A" 7).2)).1 = some b ∧
      dictGet (readA ((RegistryMetaclassMixin.registry ⟨some 0⟩
        ((RegistryMetaclassMixin._add_class ⟨some 0⟩ (⟨[[]]⟩ : Store Nat) "A" 7).2)).2) b) "A" = some 7) :=
  C1_registration_visibility ⟨some 0⟩ ⟨[[]]⟩ "A" 7 0 rfl (by decide) rfl

/-- C2: for an active registry already holding `n ↦ d1`, `register(n, d2)`
fails with the duplicate-name error (realized in the source as a `TypeError`),
the store is left unchanged, and `lookup(n)` afterwards still returns `d1`. -/
theorem C2_duplicate_rejection {α : Type} (cls : RegistryMetaclassMixin)
    (s : Store α) (n : String) (d1 d2 : α) (a : Nat)
    (ha : cls._REGISTRY = some a) (hd1 : cls.retrieve s n = some d1) :
    (cls._add_class s n d2).1 =
      Except.error ⟨"TypeError", "Type " ++ n ++ " already exists in registry"⟩ ∧
    (cls._add_class s n d2).2 = s ∧
    cls.retrieve (cls._add_class s n d2).2 n = some d1 := by
  rw [retrieve_active cls s a n ha] at hd1
  have hmem : dictMem (readA s a) n = true := by
    rw [dictMem_true_iff]; exact ⟨d1, hd1⟩
  rw [add_class_active_dup cls s n d2 a ha hmem]
  exact ⟨rfl, rfl, by rw [retrieve_active cls s a n ha]; exact hd1⟩

/-- C2 witness: registering `"A"` a second time on a registry holding
`"A" ↦ 1` fails and leaves `"A" ↦ 1` in place. -/
theorem C2_duplicate_rejection_witness :
    (RegistryMetaclassMixin._add_class ⟨some 0⟩ (⟨[[("A", 1)]]⟩ : Store Nat) "A" 2).1 =
      Except.error ⟨"TypeError", "Type " ++ "A" ++ " already exists in registry"⟩ ∧
    (RegistryMetaclassMixin._add_class ⟨some 0⟩ (⟨[[("A", 1)]]⟩ : Store Nat) "A" 2).2 =
      (⟨[[("A", 1)]]⟩ : Store Nat) ∧
    RegistryMetaclassMixin.retrieve ⟨some 0⟩
      ((RegistryMetaclassMixin._add_class ⟨some 0⟩ (⟨[[("A", 1)]]⟩ : Store Nat) "A" 2).2) "A" = some 1 :=
  C2_duplicate_rejection ⟨some 0⟩ ⟨[[("A", 1)]]⟩ "A" 1 2 0 rfl rfl

/-- C3: for an uninitialized registry (`_REGISTRY is None`), `retrieve` returns
`None` for every name and `registry()` returns `None` (with no side effect on
the store). -/
theorem C3_absence_on_uninitialized {α : Type} (cls : RegistryMetaclassMixin)
    (s : Store α) (ha : cls._REGISTRY = none) :
    (∀ n, cls.retrieve s n = none) ∧ cls.registry s = (none, s) := by
  constructor
  · intro n; simp [RegistryMetaclassMixin.retrieve, ha]
  · simp [RegistryMetaclassMixin.registry, ha]

/-- C3 witness: the uninitialized registry on an empty store. -/
theorem C3_absence_on_uninitialized_witness :
    (∀ n, RegistryMetaclassMixin.retrieve (⟨none⟩ : RegistryMetaclassMixin)
        (⟨[]⟩ : Store Nat) n = none) ∧
    RegistryMetaclassMixin.registry (⟨none⟩ : RegistryMetaclassMixin)
        (⟨[]⟩ : Store Nat) = (none, ⟨[]⟩) :=
  C3_absence_on_uninitialized ⟨none⟩ ⟨[]⟩ rfl

/-- C5: for an uninitialized registry, `_add_class` succeeds without raising
and leaves the store completely unchanged (the class state `cls` is immutable
in this branch, so the registry never becomes active), and `retrieve` still
returns `None` afterwards. -/
theorem C5_noop_on_uninitialized {α : Type} (cls : RegistryMetaclassMixin)
    (s : Store α) (n : String) (d : α) (ha : cls._REGISTRY = none) :
    cls._add_class s n d = (Except.ok (), s) ∧
    cls.retrieve (cls._add_class s n d).2 n = none := by
  have h1 : cls._add_class s n d = (Except.ok (), s) := by
    simp [RegistryMetaclassMixin._add_class, ha]
  exact ⟨h1, by rw [h1]; simp [RegistryMetaclassMixin.retrieve, ha]⟩

/-- C4: `__new__(cls, name, bases, attrs)` builds the new class with
`type.__new__` (the opaque `tnew`), passes `(name, new_cls)` to `_add_class`,
and returns the newly created class; on an active registry where the
registration succeeds, the new class is recorded under its type name. -/
theorem C4_auto_registration {α β γ : Type} (tnew : String → β → γ → α)
    (cls : RegistryMetaclassMixin) (s : Store α) (name : String)
    (bases : β) (attrs : γ) (a : Nat)
    (ha : cls._REGISTRY = some a) (hlen : a < s.heap.length)
    (hok : (cls._add_class s name (tnew name bases attrs)).1 = Except.ok ()) :
    cls.dunder_new tnew s name bases attrs =
      Except.ok (tnew name bases attrs,
        (cls._add_class s name (tnew name bases attrs)).2) ∧
    cls.retrieve (cls._add_class s name (tnew name bases attrs)).2 name =
      some (tnew name bases attrs) := by
  have hmem := add_class_ok_not_mem cls s name (tnew name bases attrs) a ha hok
  have hadd := add_class_active_ok cls s name (tnew name bases attrs) a ha hmem
  constructor
  · simp [RegistryMetaclassMixin.dunder_new, hadd]
  · rw [hadd]
    show cls.retrieve (writeA s a (dictSet (readA s a) name (tnew name bases attrs)))
      name = some (tnew name bases attrs)
    rw [retrieve_active cls _ a name ha, readA_writeA_self s a _ hlen,
      dictGet_dictSet_self]

/-- C4 witness: creating a class named `"A"` through the hook on an active
empty registry returns the class and records it under `"A"`. -/
theorem C4_auto_registration_witness :
    RegistryMetaclassMixin.dunder_new (fun n (_ : Unit) (_ : Unit) => n) ⟨some 0⟩
        (⟨[[]]⟩ : Store String) "A" () () =
      Except.ok ("A",
        (RegistryMetaclassMixin._add_class ⟨some 0⟩ (⟨[[]]⟩ : Store String) "A" "A").2) ∧
    RegistryMetaclassMixin.retrieve ⟨some 0⟩
        ((RegistryMetaclassMixin._add_class ⟨some 0⟩ (⟨[[]]⟩ : Store String) "A" "A").2)
        "A" = some "A" :=
  C4_auto_registration (fun n _ _ => n) ⟨some 0⟩ ⟨[[]]⟩ "A" () () 0 rfl (by decide) rfl

/-- C6: the mapping returned by `registry()` is a fresh copy; overwriting that
dict object with any contents `d'` changes neither later `retrieve` results,
nor the backing dict, nor the contents of a later snapshot. -/
theorem C6_snapshot_isolation {α : Type} (cls : RegistryMetaclassMixin)
    (s : Store α) (a b : Nat)
    (ha : cls._REGISTRY = some a) (hlen : a < s.heap.length)
    (hb : (cls.registry s).1 = some b) (d' : Dict α) :
    (∀ n, cls.retrieve (writeA (cls.registry s).2 b d') n = cls.retrieve s n) ∧
    readA (writeA (cls.registry s).2 b d') a = readA s a ∧
    ∃ c, (cls.registry (writeA (cls.registry s).2 b d')).1 = some c ∧
      readA (cls.registry (writeA (cls.registry s).2 b d')).2 c = readA s a := by
  have hb' : b = s.heap.length := by
    rw [registry_active cls s a ha] at hb
    exact (Option.some.inj hb).symm
  have hab : a ≠ b := by rw [hb']; omega
  have hsnap : (cls.registry s).2 = (⟨s.heap ++ [readA s a]⟩ : Store α) := by
    rw [registry_active cls s a ha]
  have hback : readA (writeA (cls.registry s).2 b d') a = readA s a := by
    rw [readA_writeA_ne _ a b d' hab, hsnap]
    exact readA_alloc_old s (readA s a) a hlen
  refine ⟨fun n => ?_, hback, ?_⟩
  · rw [retrieve_active cls _ a n ha, retrieve_active cls s a n ha, hback]
  · rw [registry_active cls (writeA (cls.registry s).2 b d') a ha]
    exact ⟨_, rfl, by rw [readA_concat_length, hback]⟩

/-- C6 witness: emptying the snapshot of a registry holding `"A" ↦ 1` leaves
lookup of `"A"`, the backing dict, and the next snapshot unchanged. -/
theorem C6_snapshot_isolation_witness :
    (∀ n, RegistryMetaclassMixin.retrieve ⟨some 0⟩
        (writeA (RegistryMetaclassMixin.registry ⟨some 0⟩
          (⟨[[("A", 1)]]⟩ : Store Nat)).2 1 []) n =
      RegistryMetaclassMixin.retrieve ⟨some 0⟩ (⟨[[("A", 1)]]⟩ : Store Nat) n) ∧
    readA (writeA (RegistryMetaclassMixin.registry ⟨some 0⟩
        (⟨[[("A", 1)]]⟩ : Store Nat)).2 1 []) 0 =
      readA (⟨[[("A", 1)]]⟩ : Store Nat) 0 ∧
    ∃ c, (RegistryMetaclassMixin.registry ⟨some 0⟩
        (writeA (RegistryMetaclassMixin.registry ⟨some 0⟩
          (⟨[[("A", 1)]]⟩ : Store Nat)).2 1 [])).1 = some c ∧
      readA (RegistryMetaclassMixin.registry ⟨some 0⟩
        (writeA (RegistryMetaclassMixin.registry ⟨some 0⟩
          (⟨[[("A", 1)]]⟩ : Store Nat)).2 1 [])).2 c =
        readA (⟨[[("A", 1)]]⟩ : Store Nat) 0 :=
  C6_snapshot_isolation ⟨some 0⟩ ⟨[[("A", 1)]]⟩ 0 1 rfl (by decide) rfl []

/-- C7: the raise in `_add_class` is the system's only failure mode, and it
occurs exactly when the registry is active and the name is already a key;
`retrieve` and `registry` are total functions of the state (they return plain
values, never an exception), so no other operation can fail. -/
theorem C7_single_failure_mode {α : Type} (cls : RegistryMetaclassMixin)
    (s : Store α) (n : String) (d : α) :
    (∃ e, (cls._add_class s n d).1 = Except.error e) ↔
      ∃ a, cls._REGISTRY = some a ∧ dictMem (readA s a) n = true := by
  constructor
  · rintro ⟨e, he⟩
    cases hr : cls._REGISTRY with
    | none =>
        simp [RegistryMetaclassMixin._add_class, hr] at he
    | some a =>
        refine ⟨a, rfl, ?_⟩
        by_contra hmem
        rw [Bool.not_eq_true] at hmem
        rw [add_class_active_ok cls s n d a hr hmem] at he
        exact Except.noConfusion he
  · rintro ⟨a, ha, hmem⟩
    exact ⟨_, by rw [add_class_active_dup cls s n d a ha hmem]⟩

/-- C9: an active registry with an empty backing dict is observably distinct
from an uninitialized one: `registry()` returns a present (empty) dict object
rather than `None`, while `retrieve` still returns `None` for every name. -/
theorem C9_active_empty_distinct {α : Type} (cls : RegistryMetaclassMixin)
    (s : Store α) (a : Nat) (ha : cls._REGISTRY = some a)
    (hempty : readA s a = []) :
    (∃ b, (cls.registry s).1 = some b ∧ readA (cls.registry s).2 b = []) ∧
    ∀ n, cls.retrieve s n = none := by
  constructor
  · rw [registry_active cls s a ha]
    exact ⟨s.heap.length, rfl, by rw [readA_concat_length, hempty]⟩
  · intro n
    rw [retrieve_active cls s a n ha, hempty]
    rfl

/-- C9 witness: the active registry whose backing dict is empty. -/
theorem C9_active_empty_distinct_witness :
    (∃ b, (RegistryMetaclassMixin.registry ⟨some 0⟩ (⟨[[]]⟩ : Store Nat)).1 = some b ∧
      readA (RegistryMetaclassMixin.registry ⟨some 0⟩ (⟨[[]]⟩ : Store Nat)).2 b = []) ∧
    ∀ n, RegistryMetaclassMixin.retrieve ⟨some 0⟩ (⟨[[]]⟩ : Store Nat) n = none :=
  C9_active_empty_distinct ⟨some 0⟩ ⟨[[]]⟩ 0 rfl rfl

/-- C10: the duplicate-name failure is realized as Python's built-in
`TypeError` with the message `"Type {name} already exists in registry"`
formatted with the offending name. -/
theorem C10_duplicate_error_realization {α : Type} (cls : RegistryMetaclassMixin)
    (s : Store α) (n : String) (d : α) (a : Nat)
    (ha : cls._REGISTRY = some a) (hmem : dictMem (readA s a) n = true) :
    (cls._add_class s n d).1 =
      Except.error ⟨"TypeError", "Type " ++ n ++ " already exists in registry"⟩ := by
  rw [add_class_active_dup cls s n d a ha hmem]

/-- C10 witness: the concrete error for name `"Foo"`, with the formatted
message spelled out. -/
theorem C10_duplicate_error_realization_witness :
    (RegistryMetaclassMixin._add_class ⟨some 0⟩ (⟨[[("Foo", 1)]]⟩ : Store Nat) "Foo" 2).1 =
      Except.error ⟨"TypeError", "Type Foo already exists in registry"⟩ :=
  C10_duplicate_error_realization ⟨some 0⟩ ⟨[[("Foo", 1)]]⟩ "Foo" 2 0 rfl rfl

/-- C5 witness: registering on the uninitialized registry is a no-op. -/
theorem C5_noop_on_uninitialized_witness :
    RegistryMetaclassMixin._add_class (⟨none⟩ : RegistryMetaclassMixin)
        (⟨[]⟩ : Store Nat) "A" 7 = (Except.ok (), ⟨[]⟩) ∧
    RegistryMetaclassMixin.retrieve (⟨none⟩ : RegistryMetaclassMixin)
        ((RegistryMetaclassMixin._add_class ⟨none⟩ (⟨[]⟩ : Store Nat) "A" 7).2) "A" = none :=
  C5_noop_on_uninitialized ⟨none⟩ ⟨[]⟩ "A" 7 rfl

/-- Invariant of reachable states: the backing dict of an active registry is a
valid store address whose keys are pairwise distinct. -/
theorem reachable_active_inv {α : Type} (cls : RegistryMetaclassMixin)
    (s : Store α) (h : Reachable cls s) :
    ∀ a, cls._REGISTRY = some a →
      a < s.heap.length ∧ (dictKeys (readA s a)).Nodup := by
  induction h with
  | init_uninit =>
      intro a ha
      exact Option.noConfusion ha
  | init_active =>
      intro a ha
      injection ha with h0
      subst h0
      exact ⟨Nat.one_pos, by simp [readA, dictKeys]⟩
  | step_register cls s n d hr ih =>
      intro a ha
      obtain ⟨ih1, ih2⟩ := ih a ha
      cases hmem : dictMem (readA s a) n with
      | true =>
          rw [add_class_active_dup cls s n d a ha hmem]
          exact ⟨ih1, ih2⟩
      | false =>
          rw [add_class_active_ok cls s n d a ha hmem]
          have hget : dictGet (readA s a) n = none := (dictMem_false_iff _ _).mp hmem
          constructor
          · rw [length_writeA]; exact ih1
          · rw [readA_writeA_self s a _ ih1, dictSet_append_of_not_mem _ _ _ hget]
            have hnk : n ∉ dictKeys (readA s a) :=
              not_mem_dictKeys_of_dictGet_none _ _ hget
            simp only [dictKeys, List.map_append, List.map_cons, List.map_nil]
            rw [List.nodup_append]
            refine ⟨ih2, List.nodup_singleton n, ?_⟩
            intro x hx hx1
            simp only [List.mem_singleton] at hx1
            subst hx1
            exact hnk hx
  | step_snapshot cls s hr ih =>
      intro a ha
      obtain ⟨ih1, ih2⟩ := ih a ha
      rw [registry_active cls s a ha]
      constructor
      · simp only [List.length_append, List.length_cons, List.length_nil]
        omega
      · rw [show (⟨s.heap ++ [readA s a]⟩ : Store α) = (alloc s (readA s a)).2 from rfl,
          readA_alloc_old s _ a ih1]
        exact ih2

/-- C8: in every state reachable from an initial state by register, lookup and
snapshot operations, the active registry's names are unique (its key list has
no duplicates), and a successful register appends exactly one new entry to the
backing dict, leaving all existing entries (and the store's shape) unchanged. -/
theorem C8_unique_names_invariant {α : Type} (cls : RegistryMetaclassMixin)
    (s : Store α) (h : Reachable cls s) (a : Nat) (ha : cls._REGISTRY = some a) :
    (dictKeys (readA s a)).Nodup ∧
    ∀ n d, (cls._add_class s n d).1 = Except.ok () →
      readA (cls._add_class s n d).2 a = readA s a ++ [(n, d)] ∧
      (cls._add_class s n d).2.heap.length = s.heap.length := by
  obtain ⟨hlen, hnodup⟩ := reachable_active_inv cls s h a ha
  refine ⟨hnodup, fun n d hok => ?_⟩
  have hmem := add_class_ok_not_mem cls s n d a ha hok
  have hget : dictGet (readA s a) n = none := (dictMem_false_iff _ _).mp hmem
  rw [add_class_active_ok cls s n d a ha hmem]
  exact ⟨by rw [readA_writeA_self s a _ hlen, dictSet_append_of_not_mem _ _ _ hget],
    length_writeA s a _⟩

/-- C8 witness: from the initial active-empty state, the keys are distinct and
registering `("A", 7)` appends exactly that entry. -/
theorem C8_unique_names_invariant_witness :
    (dictKeys (readA (⟨[[]]⟩ : Store Nat) 0)).Nodup ∧
    readA ((RegistryMetaclassMixin._add_class ⟨some 0⟩ (⟨[[]]⟩ : Store Nat) "A" 7).2) 0 =
      readA (⟨[[]]⟩ : Store Nat) 0 ++ [("A", 7)] ∧
    ((RegistryMetaclassMixin._add_class ⟨some 0⟩ (⟨[[]]⟩ : Store Nat) "A" 7).2).heap.length =
      (⟨[[]]⟩ : Store Nat).heap.length :=
  ⟨(C8_unique_names_invariant ⟨some 0⟩ ⟨[[]]⟩ Reachable.init_active 0 rfl).1,
   ((C8_unique_names_invariant ⟨some 0⟩ ⟨[[]]⟩ Reachable.init_active 0 rfl).2 "A" 7 rfl).1,
   ((C8_unique_names_invariant ⟨some 0⟩ ⟨[[]]⟩ Reachable.init_active 0 rfl).2 "A" 7 rfl).2⟩
